import Mathlib

/-!
Verification of the password-generator core logic: the character alphabets,
`buildCharacterPool`, `generateSecurePassword`, and `getPasswordStrength`,
shallowly embedded from the JavaScript source.  Randomness is modelled by
passing the list of 32-bit values that `crypto.getRandomValues` would fill
in as an explicit argument; the `Uint32Array` constructor's RangeError on a
negative length is modelled as an `invalidLength` error.
-/

namespace PasswordGenerator

/-- The four character classes a user can enable (the four checkboxes). -/
inductive CharacterClass where
  | uppercase
  | lowercase
  | numbers
  | symbols
deriving DecidableEq, Repr

/-- `CHARACTERS` from the source: the fixed alphabet of each class. -/
def CHARACTERS : CharacterClass → String
  | .uppercase => "ABCDEFGHIJKLMNOPQRSTUVWXYZ"
  | .lowercase => "abcdefghijklmnopqrstuvwxyz"
  | .numbers => "0123456789"
  | .symbols => "!@#$%^&*()_+-=[]{}|;:,.<>?"

/-- A `{min, max}` threshold record, as in `CONFIG.STRENGTH_THRESHOLDS`. -/
structure Threshold where
  min : Int
  max : Int
deriving DecidableEq, Repr

/-- `CONFIG.STRENGTH_THRESHOLDS.TOO_WEAK`. -/
def THRESHOLD_TOO_WEAK : Threshold := ⟨1, 4⟩

/-- `CONFIG.STRENGTH_THRESHOLDS.WEAK`. -/
def THRESHOLD_WEAK : Threshold := ⟨5, 8⟩

/-- `CONFIG.STRENGTH_THRESHOLDS.MEDIUM`. -/
def THRESHOLD_MEDIUM : Threshold := ⟨9, 12⟩

/-- `CONFIG.STRENGTH_THRESHOLDS.STRONG`. -/
def THRESHOLD_STRONG : Threshold := ⟨13, 16⟩

/-- The strength ratings of the spec's `StrengthRating` (without NONE,
which the code renders as `null`, i.e. `Option.none` here). -/
inductive Strength where
  | TOO_WEAK
  | WEAK
  | MEDIUM
  | STRONG
deriving DecidableEq, Repr

/-- `STRENGTH_LABELS` from the source. -/
def STRENGTH_LABELS : Strength → String
  | .TOO_WEAK => "too weak!"
  | .WEAK => "weak"
  | .MEDIUM => "medium"
  | .STRONG => "strong"

/-- The two failure modes of `generateSecurePassword`: the explicit
`throw new Error("Character pool cannot be empty")`, and the RangeError
raised by `new Uint32Array(length)` when `length` is negative. -/
inductive GenError where
  | emptyPool
  | invalidLength
deriving DecidableEq, Repr

/-- `generateSecurePassword(length, characterPool)` from the source.
`randomValues` stands for the array filled by `crypto.getRandomValues`;
the caller supplies `length` values, each a 32-bit word.  The loop picks
`characterPool[randomValues[i] % poolLength]` for `i = 0 .. length-1`. -/
def generateSecurePassword (length : Int) (randomValues : List Nat)
    (characterPool : List Char) : Except GenError (List Char) :=
  if characterPool.length = 0 then
    Except.error GenError.emptyPool
  else if length < 0 then
    Except.error GenError.invalidLength
  else
    Except.ok ((List.range length.toNat).map
      (fun i => characterPool.getD ((randomValues.getD i 0) % characterPool.length) ' '))

/-- `buildCharacterPool()` from the source, with the four checkbox states
passed explicitly.  Starts from the empty pool and appends each enabled
class's alphabet in the fixed order uppercase, lowercase, numbers, symbols. -/
def buildCharacterPool (uppercase lowercase numbers symbols : Bool) : String :=
  (if uppercase then CHARACTERS .uppercase else "")
    ++ (if lowercase then CHARACTERS .lowercase else "")
    ++ (if numbers then CHARACTERS .numbers else "")
    ++ (if symbols then CHARACTERS .symbols else "")

/-- The spec's reading of `buildCharacterPool`: concatenate the alphabets of
the enabled classes, taken in the fixed class order. -/
def buildCharacterPoolSpec (enabled : CharacterClass → Bool) : String :=
  String.join (([CharacterClass.uppercase, CharacterClass.lowercase,
      CharacterClass.numbers, CharacterClass.symbols].filter enabled).map CHARACTERS)

/-- `getPasswordStrength(length)` from the source: `null` for length 0,
otherwise the first threshold bucket containing the length, `null` if none. -/
def getPasswordStrength (length : Int) : Option String :=
  if length = 0 then none
  else if THRESHOLD_TOO_WEAK.min ≤ length ∧ length ≤ THRESHOLD_TOO_WEAK.max then
    some (STRENGTH_LABELS .TOO_WEAK)
  else if THRESHOLD_WEAK.min ≤ length ∧ length ≤ THRESHOLD_WEAK.max then
    some (STRENGTH_LABELS .WEAK)
  else if THRESHOLD_MEDIUM.min ≤ length ∧ length ≤ THRESHOLD_MEDIUM.max then
    some (STRENGTH_LABELS .MEDIUM)
  else if THRESHOLD_STRONG.min ≤ length ∧ length ≤ THRESHOLD_STRONG.max then
    some (STRENGTH_LABELS .STRONG)
  else none

/-- An element fetched with `getD` at an in-bounds index is a member. -/
theorem getD_mem_of_lt {α : Type} (l : List α) (i : Nat) (d : α)
    (h : i < l.length) : l.getD i d ∈ l := by
  rw [List.getD_eq_getElem l d h]
  exact List.getElem_mem h

/-- C1: for every length L ≥ 1 and every non-empty pool, `generateSecurePassword`
returns a sequence of exactly L characters, each a member of the pool. -/
theorem generate_length_and_membership (length : Int) (randomValues : List Nat)
    (characterPool : List Char) (hL : 1 ≤ length) (hpool : characterPool ≠ []) :
    ∃ cs, generateSecurePassword length randomValues characterPool = Except.ok cs ∧
      cs.length = length.toNat ∧ ∀ c ∈ cs, c ∈ characterPool := by
  have hlen : characterPool.length ≠ 0 := by
    simpa [List.length_eq_zero] using hpool
  refine ⟨(List.range length.toNat).map
      (fun i => characterPool.getD ((randomValues.getD i 0) % characterPool.length) ' '),
    ?_, ?_, ?_⟩
  · unfold generateSecurePassword
    rw [if_neg hlen, if_neg (by omega)]
  · simp
  · intro c hc
    rcases List.mem_map.mp hc with ⟨i, _, rfl⟩
    exact getD_mem_of_lt _ _ _ (Nat.mod_lt _ (Nat.pos_of_ne_zero hlen))

/-- C1 witness: a concrete instance of `generate_length_and_membership`. -/
theorem generate_length_and_membership_witness :
    ∃ cs, generateSecurePassword 2 [0, 3] ['a', 'b'] = Except.ok cs ∧
      cs.length = (2 : Int).toNat ∧ ∀ c ∈ cs, c ∈ ['a', 'b'] :=
  generate_length_and_membership 2 [0, 3] ['a', 'b'] (by decide) (by decide)

/-- C2: `getPasswordStrength` maps lengths to ratings by the fixed buckets
0 → none, 1–4 → too weak, 5–8 → weak, 9–12 → medium, 13–16 → strong, with the
concrete values 0, 4, 8, 12, 16 landing as the spec states. -/
theorem getPasswordStrength_buckets (length : Int) :
    (length = 0 → getPasswordStrength length = none) ∧
    (1 ≤ length → length ≤ 4 →
      getPasswordStrength length = some (STRENGTH_LABELS .TOO_WEAK)) ∧
    (5 ≤ length → length ≤ 8 →
      getPasswordStrength length = some (STRENGTH_LABELS .WEAK)) ∧
    (9 ≤ length → length ≤ 12 →
      getPasswordStrength length = some (STRENGTH_LABELS .MEDIUM)) ∧
    (13 ≤ length → length ≤ 16 →
      getPasswordStrength length = some (STRENGTH_LABELS .STRONG)) ∧
    getPasswordStrength 0 = none ∧
    getPasswordStrength 4 = some (STRENGTH_LABELS .TOO_WEAK) ∧
    getPasswordStrength 8 = some (STRENGTH_LABELS .WEAK) ∧
    getPasswordStrength 12 = some (STRENGTH_LABELS .MEDIUM) ∧
    getPasswordStrength 16 = some (STRENGTH_LABELS .STRONG) := by
  refine ⟨?_, ?_, ?_, ?_, ?_, by decide, by decide, by decide, by decide, by decide⟩ <;>
    · intros
      simp only [getPasswordStrength, THRESHOLD_TOO_WEAK, THRESHOLD_WEAK,
        THRESHOLD_MEDIUM, THRESHOLD_STRONG]
      split_ifs <;> first | rfl | omega

/-- C2 witness: the theorem applied at length 4. -/
theorem getPasswordStrength_buckets_witness :
    getPasswordStrength 4 = some (STRENGTH_LABELS .TOO_WEAK) :=
  (getPasswordStrength_buckets 4).2.1 (by decide) (by decide)

/-- C3 counterexample: `generateSecurePassword 0 P` for a non-empty pool `P`
does not fail — it returns the empty password, contradicting the claim that
`generate(0, P)` fails for every pool. -/
theorem generate_zero_nonempty_pool_counterexample :
    generateSecurePassword 0 [] ['a'] = Except.ok [] := by rfl

/-- C3 amended: `generateSecurePassword L ""` fails with the empty-pool error
for every L (L > 0 included), while `generateSecurePassword 0 P` for non-empty
`P` returns the empty password rather than an error. -/
theorem generate_empty_pool_fails (length : Int) (randomValues : List Nat)
    (characterPool : List Char) :
    generateSecurePassword length randomValues [] = Except.error GenError.emptyPool ∧
    (characterPool ≠ [] →
      generateSecurePassword 0 randomValues characterPool = Except.ok []) := by
  constructor
  · rfl
  · intro hpool
    have hlen : characterPool.length ≠ 0 := by
      simpa [List.length_eq_zero] using hpool
    unfold generateSecurePassword
    rw [if_neg hlen, if_neg (by omega)]
    simp

/-- C3 witness: concrete instances of `generate_empty_pool_fails`. -/
theorem generate_empty_pool_fails_witness :
    generateSecurePassword 5 [1, 2] [] = Except.error GenError.emptyPool ∧
    generateSecurePassword 0 [1, 2] ['a'] = Except.ok [] :=
  ⟨(generate_empty_pool_fails 5 [1, 2] ['a']).1,
   (generate_empty_pool_fails 5 [1, 2] ['a']).2 (by decide)⟩

/-- C4: `buildCharacterPool` is the concatenation of the enabled classes'
alphabets in the fixed order uppercase, lowercase, numbers, symbols — so the
result depends only on which classes are enabled — and yields the empty
string, as a valid result, when nothing is enabled. -/
theorem buildCharacterPool_eq_spec (uppercase lowercase numbers symbols : Bool) :
    buildCharacterPool uppercase lowercase numbers symbols =
      buildCharacterPoolSpec (fun c => match c with
        | .uppercase => uppercase
        | .lowercase => lowercase
        | .numbers => numbers
        | .symbols => symbols) ∧
    buildCharacterPool false false false false = "" := by
  constructor
  · cases uppercase <;> cases lowercase <;> cases numbers <;> cases symbols <;> rfl
  · rfl

/-- C5 counterexample: at length 0 with an empty pool, the code raises the
empty-pool error although neither of the claim's two conditions (pool empty
with length > 0; negative length) holds, refuting the claimed iff. -/
theorem generate_error_iff_counterexample :
    ¬ ((∃ e, generateSecurePassword 0 [] [] = Except.error e) ↔
        (([] : List Char) = [] ∧ (0 : Int) > 0) ∨ (0 : Int) < 0) := by
  intro h
  have h2 := h.mp ⟨GenError.emptyPool, rfl⟩
  rcases h2 with ⟨-, h3⟩ | h3 <;> omega

/-- C5 amended: generation fails in exactly two cases and no others —
EmptyPool whenever the pool is empty (at any length, length 0 included) and
InvalidLength for a negative length; the error is an explicit value returned
to the caller. -/
theorem generate_error_iff (length : Int) (randomValues : List Nat)
    (characterPool : List Char) :
    (∃ e, generateSecurePassword length randomValues characterPool = Except.error e) ↔
      characterPool = [] ∨ length < 0 := by
  unfold generateSecurePassword
  split_ifs with h1 h2
  · simp only [List.length_eq_zero] at h1
    simp [h1]
  · simp [h2]
  · simp only [List.length_eq_zero] at h1
    simp [h1, h2]

/-- C6: `getPasswordStrength` is total over the integers and returns none for
length 0, every negative length, and every length greater than 16. -/
theorem getPasswordStrength_total_none (length : Int) :
    (length ≤ 0 → getPasswordStrength length = none) ∧
    (16 < length → getPasswordStrength length = none) := by
  constructor <;>
    · intro h
      simp only [getPasswordStrength, THRESHOLD_TOO_WEAK, THRESHOLD_WEAK,
        THRESHOLD_MEDIUM, THRESHOLD_STRONG]
      split_ifs <;> first | rfl | omega

/-- C6 witness: the theorem applied at lengths -3 and 17. -/
theorem getPasswordStrength_total_none_witness :
    getPasswordStrength (-3) = none ∧ getPasswordStrength 17 = none :=
  ⟨(getPasswordStrength_total_none (-3)).1 (by decide),
   (getPasswordStrength_total_none 17).2 (by decide)⟩

/-- C8: the class alphabets are fixed and ordered — uppercase is exactly the
26 letters A–Z, lowercase exactly the 26 letters a–z, numbers exactly the 10
digits 0–9, symbols a fixed 26-character set of printable symbols — and with
only numbers enabled `buildCharacterPool` returns "0123456789". -/
theorem characters_alphabets :
    (CHARACTERS .uppercase).length = 26 ∧
    (CHARACTERS .uppercase).toList =
      (List.range 26).map (fun i => Char.ofNat (65 + i)) ∧
    (CHARACTERS .lowercase).length = 26 ∧
    (CHARACTERS .lowercase).toList =
      (List.range 26).map (fun i => Char.ofNat (97 + i)) ∧
    (CHARACTERS .numbers).length = 10 ∧
    (CHARACTERS .numbers).toList =
      (List.range 10).map (fun i => Char.ofNat (48 + i)) ∧
    (CHARACTERS .symbols) = "!@#$%^&*()_+-=[]\x7b\x7d|;:,.<>?" ∧
    buildCharacterPool false false true false = "0123456789" := by
  refine ⟨by decide, by decide, by decide, by decide, by decide, by decide, rfl, rfl⟩

/-- C9: for every non-empty pool and length ≥ 0, every computed index (a
random value reduced modulo the pool length) is strictly below the pool
length, so each lookup is in bounds and generation succeeds. -/
theorem generate_indices_in_bounds (length : Int) (randomValues : List Nat)
    (characterPool : List Char) (hpool : 0 < characterPool.length)
    (hlen : 0 ≤ length) :
    (∀ i, (randomValues.getD i 0) % characterPool.length < characterPool.length) ∧
    ∃ cs, generateSecurePassword length randomValues characterPool = Except.ok cs := by
  refine ⟨fun i => Nat.mod_lt _ hpool,
    (List.range length.toNat).map
      (fun i => characterPool.getD ((randomValues.getD i 0) % characterPool.length) ' '),
    ?_⟩
  unfold generateSecurePassword
  rw [if_neg (by omega), if_neg (by omega)]

/-- C9 witness: a concrete instance of `generate_indices_in_bounds`. -/
theorem generate_indices_in_bounds_witness :
    (∀ i, (([7, 9] : List Nat).getD i 0) % (['x', 'y', 'z'] : List Char).length <
      (['x', 'y', 'z'] : List Char).length) ∧
    ∃ cs, generateSecurePassword 2 [7, 9] ['x', 'y', 'z'] = Except.ok cs :=
  generate_indices_in_bounds 2 [7, 9] ['x', 'y', 'z'] (by decide) (by decide)

/-- C10: `generateSecurePassword` raises its empty-pool error exactly when
the pool is empty, at every length, and for a non-empty pool with length 0 it
succeeds and returns the empty sequence. -/
theorem generate_empty_pool_error_iff (length : Int) (randomValues : List Nat)
    (characterPool : List Char) :
    (generateSecurePassword length randomValues characterPool =
        Except.error GenError.emptyPool ↔ characterPool = []) ∧
    (characterPool ≠ [] →
      generateSecurePassword 0 randomValues characterPool = Except.ok []) := by
  constructor
  · unfold generateSecurePassword
    split_ifs with h1 h2
    · simp only [List.length_eq_zero] at h1
      simp [h1]
    · simp only [List.length_eq_zero] at h1
      simp [h1]
    · simp only [List.length_eq_zero] at h1
      simp [h1]
  · intro hpool
    have hlen : characterPool.length ≠ 0 := by
      simpa [List.length_eq_zero] using hpool
    unfold generateSecurePassword
    rw [if_neg hlen, if_neg (by omega)]
    simp

/-- C10 witness: concrete instances of `generate_empty_pool_error_iff`. -/
theorem generate_empty_pool_error_iff_witness :
    (generateSecurePassword 3 [] [] = Except.error GenError.emptyPool ↔
      ([] : List Char) = []) ∧
    generateSecurePassword 0 [] ['q'] = Except.ok [] :=
  ⟨(generate_empty_pool_error_iff 3 [] []).1,
   (generate_empty_pool_error_iff 3 [] ['q']).2 (by decide)⟩

end PasswordGenerator
